import Mathlib

/-!
Verification development for the `dac_costing` cost-composition engine
(`dac_costing/model.py`).

The numeric values flowing through the model are embedded as exact
rationals, with an explicit not-a-number element (`RVal.nan`) mirroring
the `defaultdict(nan)` value records of the source: every arithmetic
operation propagates `nan` strictly, as IEEE floats do on the operations
the model uses.  The float power operator `**` (applied with
rational-valued scaling exponents) is abstracted as an explicit function
argument `pw : ℚ → ℚ → ℚ` threaded through the definitions; the source's
"numeric type substitutability" design makes the formulas polymorphic in
the arithmetic anyway, and every theorem below either holds for all `pw`
or takes the property of `pw` it needs as an explicit hypothesis.
-/

namespace DacCosting

/-- A model value: either an ordinary (rational) number or `nan`,
the sentinel produced by `values_factory`'s `defaultdict(nan)`. -/
inductive RVal where
  | nan : RVal
  | val (q : ℚ) : RVal
  deriving DecidableEq, Repr

namespace RVal

/-- Shorthand injection of a rational into `RVal`. -/
def rq (q : ℚ) : RVal := RVal.val q

def add : RVal → RVal → RVal
  | val a, val b => val (a + b)
  | _, _ => nan

def sub : RVal → RVal → RVal
  | val a, val b => val (a - b)
  | _, _ => nan

def mul : RVal → RVal → RVal
  | val a, val b => val (a * b)
  | _, _ => nan

/-- Division; a zero divisor yields `nan` (the source never divides by
zero on the inputs any claim quantifies over). -/
def div : RVal → RVal → RVal
  | val a, val b => if b = 0 then nan else val (a / b)
  | _, _ => nan

/-- The float `**`, lifted from an abstract rational power `pw`. -/
def powP (pw : ℚ → ℚ → ℚ) : RVal → RVal → RVal
  | val a, val b => val (pw a b)
  | _, _ => nan

instance : Add RVal := ⟨RVal.add⟩
instance : Sub RVal := ⟨RVal.sub⟩
instance : Mul RVal := ⟨RVal.mul⟩
instance : Div RVal := ⟨RVal.div⟩

@[simp] theorem add_val (a b : ℚ) : rq a + rq b = rq (a + b) := rfl
@[simp] theorem sub_val (a b : ℚ) : rq a - rq b = rq (a - b) := rfl
@[simp] theorem mul_val (a b : ℚ) : rq a * rq b = rq (a * b) := rfl

@[simp] theorem nan_add (b : RVal) : RVal.nan + b = RVal.nan := rfl
@[simp] theorem add_nan (a : RVal) : a + RVal.nan = RVal.nan := by
  cases a <;> rfl
@[simp] theorem nan_sub (b : RVal) : RVal.nan - b = RVal.nan := rfl
@[simp] theorem sub_nan (a : RVal) : a - RVal.nan = RVal.nan := by
  cases a <;> rfl
@[simp] theorem nan_mul (b : RVal) : RVal.nan * b = RVal.nan := rfl
@[simp] theorem mul_nan (a : RVal) : a * RVal.nan = RVal.nan := by
  cases a <;> rfl
@[simp] theorem nan_div (b : RVal) : RVal.nan / b = RVal.nan := rfl
@[simp] theorem div_nan (a : RVal) : a / RVal.nan = RVal.nan := by
  cases a <;> rfl
@[simp] theorem nan_powP (pw : ℚ → ℚ → ℚ) (b : RVal) :
    RVal.powP pw RVal.nan b = RVal.nan := rfl
@[simp] theorem powP_nan (pw : ℚ → ℚ → ℚ) (a : RVal) :
    RVal.powP pw a RVal.nan = RVal.nan := by cases a <;> rfl
@[simp] theorem powP_val (pw : ℚ → ℚ → ℚ) (a b : ℚ) :
    RVal.powP pw (rq a) (rq b) = rq (pw a b) := rfl
@[simp] theorem div_val (a b : ℚ) :
    rq a / rq b = if b = 0 then RVal.nan else rq (a / b) := rfl

@[simp] theorem nan_ne_val (q : ℚ) : RVal.nan ≠ rq q := by
  intro h; cases h

@[simp] theorem val_injective (a b : ℚ) : rq a = rq b ↔ a = b := by
  constructor
  · intro h; cases h; rfl
  · intro h; rw [h]

end RVal

open RVal (rq)

/-- The record keys ever written or read by the model's compute passes
(the string keys of the `values` defaultdicts, as a closed enumeration). -/
inductive Key where
  | plannedCapacityFactor        -- "Planned Capacity Factor"
  | baseEnergyRequirement        -- "Base Energy Requirement [MW]"
  | batteryCapacity              -- "Battery Capacity [MWh]"
  | roundTripEfficiency          -- "Round Trip Efficiency"
  | batteryCapacityNeeded        -- "Battery Capacity Needed [MWh]"
  | increasedMWh                 -- "Increased [MWh]"
  | increasedNeedMW              -- "Increased Need [MW]"
  | batteryCapitalCost           -- "Battery Capital Cost [M$]"
  | batteryFixedOM               -- "Battery Fixed O&M [$/tCO2eq]"
  | batteryVariableOM            -- "Battery Variable O&M [$/tCO2eq]"
  | plantSize                    -- "Plant Size [MW]"
  | overnightCost                -- "Overnight Cost [M$]"
  | leadTimeMultiplier           -- "Lead Time Multiplier"
  | capitalCost                  -- "Capital Cost [M$]"
  | totalCapitalCost             -- "Total Capital Cost [M$]"
  | capitalRecovery              -- "Capital Recovery [$/tCO2eq]"
  | powerFixedOM                 -- "Power Fixed O&M [$/tCO2eq]"
  | powerVariableOM              -- "Power Variable O&M [$/tCO2eq]"
  | totalFixedOM                 -- "Total Fixed O&M [$/tCO2eq]"
  | totalVariableOM              -- "Total Variable O&M [$/tCO2eq]"
  | naturalGasUse                -- "Natural Gas Use [mmBTU/tCO2eq]"
  | naturalGasCost               -- "Natural Gas Cost [$/tCO2eq]"
  | emitted                      -- "Emitted [tCO2eq/tCO2]"
  | totalCostGross               -- "Total Cost [$/tCO2eq gross]"
  | totalCostNet                 -- "Total Cost [$/tCO2eq net]"
  | capitalCostInclLeadTime      -- "Capital Cost (including Lead Time) [M$]"
  | fixedOM                      -- "Fixed O&M [$/tCO2eq]"
  | variableOM                   -- "Variable O&M [$/tCO2eq]"
  | totalCost                    -- "Total Cost [$/tCO2]"
  | totalPowerCapacityRequired   -- "Total Power Capacity Required [MW]"
  | totalBatteryCapacityRequired -- "Total Battery Capacity Required [MWh]"
  | naturalGasCostPerTCO2        -- "Natural Gas Cost [$/tCO2]"
  | netCapture                   -- "Net Capture [tCO2/yr]"
  | totalCostNetRemoved          -- "Total Cost [$/tCO2 net removed]"
  deriving DecidableEq, Repr

/-- A `ValueRecord`: the `values` mapping of a component.  `none` means
the key is absent from the underlying dict; lookups of absent keys
produce `RVal.nan` (the `defaultdict(nan)` behavior). -/
def VRec := Key → Option RVal

/-- The empty record (a component's `values` right after construction). -/
def vempty : VRec := fun _ => none

/-- `values[k]` lookup with the `defaultdict(nan)` default. -/
def vget (v : VRec) (k : Key) : RVal := (v k).getD RVal.nan

/-- `values[k] = x` assignment. -/
def vset (v : VRec) (k : Key) (x : RVal) : VRec :=
  fun k' => if k' = k then some x else v k'

/-- `k in values` membership test. -/
def vmem (v : VRec) (k : Key) : Prop := (v k).isSome

instance (v : VRec) (k : Key) : Decidable (vmem v k) := by
  unfold vmem; infer_instance

/-- `self.values.update(other)`: keys of `other` override. -/
def vupdate (v other : VRec) : VRec :=
  fun k => (other k).elim (v k) some

@[simp] theorem vget_vset (v : VRec) (k k' : Key) (x : RVal) :
    vget (vset v k x) k' = if k' = k then x else vget v k' := by
  unfold vget vset
  by_cases h : k' = k <;> simp [h]

@[simp] theorem vset_app (v : VRec) (k k' : Key) (x : RVal) :
    vset v k x k' = if k' = k then some x else v k' := rfl

@[simp] theorem vget_vempty (k : Key) : vget vempty k = RVal.nan := rfl

@[simp] theorem vupdate_app (v other : VRec) (k : Key) :
    vupdate v other k = (other k).elim (v k) some := rfl

theorem vget_vupdate (v other : VRec) (k : Key) :
    vget (vupdate v other) k =
      match other k with
      | some x => x
      | none => vget v k := by
  unfold vget vupdate
  cases other k <;> rfl

-- Constants from the top of `model.py`.
def HOURS_PER_DAY : ℚ := 24
def DAYS_PER_YEAR : ℚ := 365
def HOURS_PER_YEAR : ℚ := DAYS_PER_YEAR * HOURS_PER_DAY
def MILLION : ℚ := 1000000
def KW_TO_MW : ℚ := 1000
def LB_TO_METRIC_TON : ℚ := 453592 / 1000000000
def GJ_TO_MMBTU : ℚ := 94709 / 100000

/-- One entry of the nested `Technology` table (all fields the model
reads for a technology; `Final Heat Rate [BTU/kWh]` is nullable). -/
structure Tech where
  availability : ℚ               -- "Availability"
  basePlantCost : ℚ              -- "Base Plant Cost [M$]"
  plantSize : ℚ                  -- "Plant Size [MW]"
  scalingFactor : ℚ              -- "Scaling Factor"
  baseFixedOM : ℚ                -- "Base Plant Annual Fixed O&M [$M]"
  variableOM : ℚ                 -- "Variable O&M [$/MWhr]"
  leadTime : ℕ                   -- "Lead Time [Years]" (used via int())
  heatRate : Option ℚ            -- "Final Heat Rate [BTU/kWh]" (nullable)
  co2eq : ℚ                      -- "Total CO2 eq [lb/mmbtu]"
  captureEfficiency : ℚ          -- "Capture Efficiency"
  efficiency : ℚ                 -- "Efficiency (Thermal or Round Trip)"
  batteryCapacity : ℚ            -- "Battery Capacity [MWhr]"
  deriving DecidableEq

/-- The parameter set a component holds after `__post_init__` merged the
defaults (the well-formed case: every key the §3 schema requires is
present; raw missing-key dict behavior is modelled separately by
`dict_getitem`). -/
structure Params where
  wacc : ℚ                       -- "WACC [%]"
  economicLifetime : ℕ           -- "Economic Lifetime [years]"
  scale : ℚ                      -- "Scale [tCO2/year]"
  dacCapacityFactor : ℚ          -- "DAC Capacity Factor"
  naturalGasCost : ℚ             -- "Natural Gas Cost [$/mmBTU]"
  totalCapex : ℚ                 -- "Total Capex [$]"
  dacSectionLeadTime : ℕ         -- "DAC Section Lead Time [years]"
  fixedOMCosts : ℚ               -- "Fixed O&M Costs [$/tCO2]"
  variableOMCost : ℚ             -- "Variable O&M Cost [$/tCO2]"
  baseEnergyRequirement : ℚ      -- "Base Energy Requirement [MW]"
  requiredThermalEnergy : ℚ      -- "Required Thermal Energy [GJ/tCO2]"
  technology : String → Tech     -- the nested "Technology" table

/-- Plain-dict indexing, `self.params[key]` in the source: a missing key
raises `KeyError` (modelled as `Except.error`), it does NOT yield `nan`
— only the `values` defaultdicts have the `nan` default. -/
def dict_getitem (d : List (String × ℚ)) (k : String) : Except String ℚ :=
  match d.lookup k with
  | some q => Except.ok q
  | none => Except.error ("KeyError: " ++ k)

/-- `DacComponent.lead_time_mult`'s intermediate list `values`:
starts as `[(1 + rate) * (1 / time)]` and, for `t` in `1..time-1`,
appends `sum(values[:t]) * rate + (1 + rate) * (1 / time)` (at iteration
`t` the slice `values[:t]` is the whole list so far). -/
def lead_time_vals (rate : ℚ) (time : ℕ) : List ℚ :=
  (List.range (time - 1)).foldl
    (fun acc _ => acc ++ [acc.sum * rate + (1 + rate) * (1 / (time : ℚ))])
    [(1 + rate) * (1 / (time : ℚ))]

/-- `DacComponent.lead_time_mult(time)`: the sum of the accrual list. -/
def lead_time_mult (rate : ℚ) (time : ℕ) : ℚ := (lead_time_vals rate time).sum

/-- `numpy_financial.pmt(rate, nper, pv, fv=0, when=0)`, modelled from
the library's documented semantics (the library itself is an external
dependency): the fixed payment solving
`fv + pv*(1+rate)^nper + pmt*((1+rate)^nper - 1)/rate = 0`, with the
`rate = 0` degenerate case `-(fv + pv)/nper`. -/
def npf_pmt (rate : ℚ) (nper : ℕ) (pv : ℚ) : ℚ :=
  let temp := (1 + rate) ^ nper
  let fact := if rate = 0 then (nper : ℚ) else (temp - 1) / rate ;
  -(pv * temp) / fact

/-- `DacComponent.recovery_factor`: `-npf.pmt(WACC, lifetime, 1)`. -/
def recovery_factor (p : Params) : ℚ :=
  -(npf_pmt p.wacc p.economicLifetime 1)

/-- Construction-time validation failures (the `ValueError`s raised by
the `__post_init__` methods, carrying exactly the data their messages
interpolate: the offending source, and for `EnergySection` the allowed
set). -/
inductive InitError where
  | invalidEnergySource (source : String) (allowed : List String)
  | invalidNaturalGasSource (source : String)
  deriving DecidableEq, Repr

def VALID_ENERGYSOURCES : List String :=
  ["NGCC w/ CCS", "Advanced NGCC", "Solar", "Wind", "Advanced Nuclear"]

/-- `BatterySection`: parameters plus its own `values` record. -/
structure BatterySection where
  params : Params
  values : VRec

/-- `EnergySection` (also the carrier for its `NgThermalSection`
subclass, which only overrides validation and `compute`). -/
structure EnergySection where
  params : Params
  source : String
  battery : Option BatterySection
  values : VRec

/-- `DacSection`: parameters plus its own `values` record. -/
structure DacSection where
  params : Params
  values : VRec

/-- `EnergySection.__post_init__`: rejects a source outside
`VALID_ENERGYSOURCES`; `values` starts as an empty record. -/
def mkEnergySection (p : Params) (source : String)
    (battery : Option BatterySection) : Except InitError EnergySection :=
  if source ∈ VALID_ENERGYSOURCES then
    Except.ok { params := p, source := source, battery := battery, values := vempty }
  else
    Except.error (InitError.invalidEnergySource source VALID_ENERGYSOURCES)

/-- `NgThermalSection.__post_init__`: rejects a source outside the
gas-capable pair, then defers to the superclass check. -/
def mkNgThermalSection (p : Params) (source : String)
    (battery : Option BatterySection) : Except InitError EnergySection :=
  if source ∈ ["NGCC w/ CCS", "Advanced NGCC"] then
    mkEnergySection p source battery
  else
    Except.error (InitError.invalidNaturalGasSource source)

/-- `BatterySection.compute(e_vals)`: storage sizing and cost, reading
the owning energy section's record `e_vals`. -/
def computeBattery (pw : ℚ → ℚ → ℚ) (s : BatterySection) (e_vals : VRec) :
    BatterySection :=
  let tech := s.params.technology "Battery Storage"
  let v := s.values
  let v := vset v Key.batteryCapacity
    (vget e_vals Key.baseEnergyRequirement *
      (rq HOURS_PER_DAY * (rq 1 - vget e_vals Key.plannedCapacityFactor)))
  let v := vset v Key.roundTripEfficiency (rq tech.efficiency)
  let v := vset v Key.batteryCapacityNeeded
    (vget v Key.batteryCapacity / vget v Key.roundTripEfficiency)
  let v := vset v Key.increasedMWh
    (vget v Key.batteryCapacityNeeded - vget v Key.batteryCapacity)
  let v := vset v Key.increasedNeedMW
    (vget v Key.increasedMWh /
      (rq HOURS_PER_DAY * vget e_vals Key.plannedCapacityFactor))
  let v := vset v Key.batteryCapitalCost
    (rq tech.basePlantCost *
      RVal.powP pw (vget v Key.batteryCapacityNeeded / rq tech.batteryCapacity)
        (rq tech.scalingFactor))
  let v := vset v Key.batteryFixedOM
    (rq tech.baseFixedOM *
      RVal.powP pw (vget v Key.batteryCapacityNeeded / rq tech.batteryCapacity)
        (rq tech.scalingFactor)
      * rq MILLION / rq s.params.scale)
  let v := vset v Key.batteryVariableOM
    (rq tech.variableOM * vget v Key.batteryCapacity / rq s.params.scale *
      rq DAYS_PER_YEAR)
  { s with values := v }

/-- `EnergySection.compute()`, in source order; `self.battery` is
computed and merged (`self.values.update(...)`) when attached. -/
def computeEnergy (pw : ℚ → ℚ → ℚ) (s : EnergySection) : EnergySection :=
  let p := s.params
  let tech := p.technology s.source
  let operational_hours := p.dacCapacityFactor * HOURS_PER_YEAR
  let v := s.values
  let v := vset v Key.plannedCapacityFactor (rq tech.availability)
  let v := vset v Key.baseEnergyRequirement (rq p.baseEnergyRequirement)
  let battery := s.battery.map (fun b => computeBattery pw b v)
  let v := match battery with
    | some b => vupdate v b.values
    | none => v
  let v := vset v Key.plantSize
    (vget v Key.baseEnergyRequirement / vget v Key.plannedCapacityFactor)
  let v := if s.battery.isSome then
      vset v Key.plantSize (vget v Key.plantSize + vget v Key.increasedNeedMW)
    else v
  let v := vset v Key.overnightCost
    (rq tech.basePlantCost *
      RVal.powP pw (vget v Key.plantSize / rq tech.plantSize) (rq tech.scalingFactor))
  let v := vset v Key.leadTimeMultiplier (rq (lead_time_mult p.wacc tech.leadTime))
  let v := vset v Key.capitalCost
    (vget v Key.overnightCost * vget v Key.leadTimeMultiplier)
  let v := vset v Key.totalCapitalCost (vget v Key.capitalCost)
  let v := if s.battery.isSome then
      vset v Key.totalCapitalCost
        (vget v Key.totalCapitalCost + vget v Key.batteryCapitalCost)
    else v
  let annual_capital_recovery_factor := recovery_factor p
  let v := vset v Key.capitalRecovery
    (vget v Key.totalCapitalCost * rq annual_capital_recovery_factor *
      rq MILLION / rq p.scale)
  let v := vset v Key.powerFixedOM
    (rq tech.baseFixedOM *
      RVal.powP pw (vget v Key.plantSize / rq tech.plantSize) (rq tech.scalingFactor)
      * rq MILLION / rq p.scale)
  let v := vset v Key.powerVariableOM
    (rq tech.variableOM * vget v Key.plantSize * rq operational_hours / rq p.scale)
  let v := vset v Key.totalFixedOM (vget v Key.powerFixedOM)
  let v := if s.battery.isSome then
      vset v Key.totalFixedOM (vget v Key.totalFixedOM + vget v Key.batteryFixedOM)
    else v
  let v := vset v Key.totalVariableOM (vget v Key.powerVariableOM)
  let v := if s.battery.isSome then
      vset v Key.totalVariableOM
        (vget v Key.totalVariableOM + vget v Key.batteryVariableOM)
    else v
  let v := match tech.heatRate with
    | some hr =>
        vset v Key.naturalGasUse
          (rq operational_hours * vget v Key.plantSize * rq KW_TO_MW * rq hr
            / rq MILLION / rq p.scale)
    | none => vset v Key.naturalGasUse (rq 0)
  let v := vset v Key.naturalGasCost
    (vget v Key.naturalGasUse * rq p.naturalGasCost)
  let v := vset v Key.emitted
    (vget v Key.naturalGasUse * rq tech.co2eq * rq LB_TO_METRIC_TON *
      (rq 1 - rq tech.captureEfficiency))
  let v := vset v Key.totalCostGross
    (vget v Key.capitalRecovery + vget v Key.totalFixedOM +
      vget v Key.totalVariableOM)
  let v := vset v Key.totalCostNet
    (vget v Key.totalCostGross / (rq 1 - vget v Key.emitted))
  { s with battery := battery, values := v }

/-- `NgThermalSection.compute()`: thermal demand met by direct fuel
combustion; plant-size/capital/O&M fields zeroed. -/
def computeNgThermal (s : EnergySection) : EnergySection :=
  let p := s.params
  let v := s.values
  let v := vset v Key.plantSize (rq 0)
  let v := vset v Key.totalCapitalCost (rq 0)
  let v := vset v Key.capitalRecovery (rq 0)
  let v := vset v Key.totalFixedOM (rq 0)
  let v := vset v Key.totalVariableOM (rq 0)
  let nat_gas_mmbtu := p.requiredThermalEnergy * GJ_TO_MMBTU * p.scale
  let capacity : ℚ := 1
  let v := vset v Key.naturalGasUse
    (rq nat_gas_mmbtu / (rq capacity * rq p.scale))
  let v := vset v Key.naturalGasCost
    (vget v Key.naturalGasUse * rq p.naturalGasCost)
  let v := vset v Key.emitted (rq 0)
  { s with values := v }

/-- `DacSection.compute()`, in source order. -/
def computeDac (s : DacSection) : DacSection :=
  let p := s.params
  let v := s.values
  let v := vset v Key.totalCapitalCost (rq p.totalCapex)
  let v := vset v Key.leadTimeMultiplier
    (rq (lead_time_mult p.wacc p.dacSectionLeadTime))
  let v := vset v Key.capitalCostInclLeadTime
    (vget v Key.totalCapitalCost * vget v Key.leadTimeMultiplier)
  let v := vset v Key.capitalRecovery
    (vget v Key.totalCapitalCost * rq (recovery_factor p) * rq MILLION /
      rq p.scale)
  let v := vset v Key.fixedOM (rq p.fixedOMCosts)
  let v := vset v Key.variableOM (rq p.variableOMCost)
  let v := vset v Key.totalCost
    (vget v Key.capitalRecovery + vget v Key.fixedOM + vget v Key.variableOM)
  { s with values := v }

/-- An energy component slot of `DacModel`: a plain `EnergySection` or
an `NgThermalSection` (which dispatches to the overridden `compute`). -/
inductive EnergyComponent where
  | standard (s : EnergySection)
  | ngThermal (s : EnergySection)

def EnergyComponent.source : EnergyComponent → String
  | standard s => s.source
  | ngThermal s => s.source

def EnergyComponent.values : EnergyComponent → VRec
  | standard s => s.values
  | ngThermal s => s.values

def EnergyComponent.compute (pw : ℚ → ℚ → ℚ) :
    EnergyComponent → EnergyComponent
  | standard s => standard (computeEnergy pw s)
  | ngThermal s => ngThermal (computeNgThermal s)

/-- `DacModel`: the composite component. -/
structure DacModel where
  params : Params
  electric : EnergyComponent
  thermal : EnergyComponent
  dac : DacSection
  values : VRec

/-- `DacModel._combined_power_block_requirements(source, ev, tv)`. -/
def combinedPowerBlock (pw : ℚ → ℚ → ℚ) (p : Params) (source : String)
    (ev tv : VRec) : VRec :=
  let tech := p.technology source
  let bat_tech := p.technology "Battery Storage"
  let v := vempty
  let operational_hours := p.dacCapacityFactor * HOURS_PER_YEAR
  let v := vset v Key.plantSize (vget ev Key.plantSize + vget tv Key.plantSize)
  let v := vset v Key.overnightCost
    (rq tech.basePlantCost *
      RVal.powP pw (vget v Key.plantSize / rq tech.plantSize) (rq tech.scalingFactor))
  let v := vset v Key.leadTimeMultiplier (rq (lead_time_mult p.wacc tech.leadTime))
  let v := vset v Key.capitalCost
    (vget v Key.overnightCost * vget v Key.leadTimeMultiplier)
  let v := vset v Key.powerFixedOM
    (rq tech.baseFixedOM *
      RVal.powP pw (vget v Key.plantSize / rq tech.plantSize) (rq tech.scalingFactor)
      * rq MILLION / rq p.scale)
  let v := vset v Key.powerVariableOM
    (rq tech.variableOM * vget v Key.plantSize * rq operational_hours / rq p.scale)
  let v :=
    if vmem ev Key.batteryCapacityNeeded then
      let v := vset v Key.batteryCapacity
        (vget ev Key.batteryCapacityNeeded + vget tv Key.batteryCapacityNeeded)
      let v := vset v Key.batteryCapitalCost
        (rq bat_tech.basePlantCost *
          RVal.powP pw (vget v Key.batteryCapacity / rq bat_tech.batteryCapacity)
            (rq bat_tech.scalingFactor))
      let v := vset v Key.batteryFixedOM
        (rq bat_tech.baseFixedOM *
          RVal.powP pw (vget v Key.batteryCapacity / rq bat_tech.batteryCapacity)
            (rq bat_tech.scalingFactor)
          * rq MILLION / rq p.scale)
      let v := vset v Key.batteryVariableOM
        (rq bat_tech.variableOM * vget v Key.batteryCapacity / rq p.scale *
          rq DAYS_PER_YEAR)
      v
    else
      let v := vset v Key.batteryCapacity (rq 0)
      let v := vset v Key.batteryCapitalCost (rq 0)
      let v := vset v Key.batteryFixedOM (rq 0)
      let v := vset v Key.batteryVariableOM (rq 0)
      v
  let v := vset v Key.totalCapitalCost
    (vget v Key.capitalCost + vget v Key.batteryCapitalCost)
  let v := vset v Key.capitalRecovery
    (vget v Key.totalCapitalCost * rq (recovery_factor p) * rq MILLION /
      rq p.scale)
  let v := vset v Key.fixedOM
    (vget v Key.powerFixedOM + vget v Key.batteryFixedOM)
  let v := vset v Key.variableOM
    (vget v Key.powerVariableOM + vget v Key.batteryVariableOM)
  v

/-- `DacModel._total_energy_block_costs(ev, tv)`: the independent-sum
path. -/
def totalEnergyBlockCosts (p : Params) (ev tv : VRec) : VRec :=
  let v := vempty
  let v := vset v Key.totalPowerCapacityRequired
    (vget ev Key.plantSize + vget tv Key.plantSize)
  let v :=
    if vmem ev Key.batteryCapacityNeeded then
      vset v Key.totalBatteryCapacityRequired
        (vget ev Key.batteryCapacityNeeded + vget tv Key.batteryCapacityNeeded)
    else vset v Key.totalBatteryCapacityRequired (rq 0)
  let v := vset v Key.totalCapitalCost
    (vget ev Key.totalCapitalCost + vget tv Key.totalCapitalCost)
  let v := vset v Key.capitalRecovery
    (vget ev Key.capitalRecovery + vget tv Key.capitalRecovery)
  let v := vset v Key.fixedOM
    (vget ev Key.totalFixedOM + vget tv Key.totalFixedOM)
  let v := vset v Key.variableOM
    (vget ev Key.totalVariableOM + vget tv Key.totalVariableOM)
  let v := vset v Key.naturalGasCost
    (vget ev Key.naturalGasCost + vget tv Key.naturalGasCost)
  let v := vset v Key.totalCost
    (vget v Key.capitalRecovery + vget v Key.fixedOM + vget v Key.variableOM +
      vget v Key.naturalGasCost)
  let v := vset v Key.netCapture
    (rq p.scale - rq p.scale * (vget ev Key.emitted + vget tv Key.emitted))
  let v := vset v Key.totalCostNetRemoved
    (vget v Key.totalCost / (rq 1 - (vget ev Key.emitted + vget tv Key.emitted)))
  v

/-- `DacModel._total_energy_block_costs_combined(ev, tv, cv)`: the
shared-plant path, pulling totals from the combined record `cv`. -/
def totalEnergyBlockCostsCombined (p : Params) (ev tv cv : VRec) : VRec :=
  let v := vempty
  let v := vset v Key.totalPowerCapacityRequired
    (vget ev Key.plantSize + vget tv Key.plantSize)
  let v :=
    if vmem ev Key.batteryCapacityNeeded then
      vset v Key.totalBatteryCapacityRequired
        (vget ev Key.batteryCapacityNeeded + vget tv Key.batteryCapacityNeeded)
    else vset v Key.totalBatteryCapacityRequired (rq 0)
  let v := vset v Key.totalCapitalCost (vget cv Key.totalCapitalCost)
  let v := vset v Key.capitalRecovery (vget cv Key.capitalRecovery)
  let v := vset v Key.fixedOM (vget cv Key.fixedOM)
  let v := vset v Key.variableOM (vget cv Key.variableOM)
  let v := vset v Key.naturalGasCost
    (vget ev Key.naturalGasCost + vget tv Key.naturalGasCost)
  let v := vset v Key.totalCost
    (vget v Key.capitalRecovery + vget v Key.fixedOM + vget v Key.variableOM +
      vget v Key.naturalGasCost)
  let v := vset v Key.netCapture
    (rq p.scale - rq p.scale * (vget ev Key.emitted + vget tv Key.emitted))
  let v := vset v Key.totalCostNetRemoved
    (vget v Key.totalCost / (rq 1 - (vget ev Key.emitted + vget tv Key.emitted)))
  v

/-- The `tev` record of `DacModel.compute()`: computes the electric and
thermal records and dispatches on technology-name equality. -/
def energyTotals (pw : ℚ → ℚ → ℚ) (p : Params) (e t : EnergyComponent) : VRec :=
  let ev := (EnergyComponent.compute pw e).values
  let tv := (EnergyComponent.compute pw t).values
  if e.source = t.source then
    totalEnergyBlockCostsCombined p ev tv (combinedPowerBlock pw p e.source ev tv)
  else
    totalEnergyBlockCosts p ev tv

/-- `DacModel.compute()`: recompute the sections, dispatch on source
equality, then write the composite totals. -/
def computeDacModel (pw : ℚ → ℚ → ℚ) (m : DacModel) : DacModel :=
  let electric := EnergyComponent.compute pw m.electric
  let thermal := EnergyComponent.compute pw m.thermal
  let tev := energyTotals pw m.params m.electric m.thermal
  let dacS := computeDac m.dac
  let dv := dacS.values
  let v := m.values
  let v := vset v Key.totalCapitalCost
    (vget tev Key.totalCapitalCost + vget dv Key.capitalCostInclLeadTime)
  let v := vset v Key.capitalRecovery
    (vget v Key.totalCapitalCost * rq (recovery_factor m.params) * rq MILLION /
      rq m.params.scale)
  let v := vset v Key.fixedOM (vget tev Key.fixedOM + vget dv Key.fixedOM)
  let v := vset v Key.variableOM
    (vget tev Key.variableOM + vget dv Key.variableOM)
  let v := vset v Key.naturalGasCostPerTCO2 (vget tev Key.naturalGasCost)
  let v := vset v Key.totalCost
    (vget v Key.capitalRecovery + vget v Key.fixedOM + vget v Key.variableOM +
      vget v Key.naturalGasCostPerTCO2)
  { m with electric := electric, thermal := thermal, dac := dacS, values := v }

/-!  ## Write lists: each compute pass as a list of key/value writes -/

/-- Apply a list of key/value writes in order (later entries win). -/
def vsets (v : VRec) : List (Key × RVal) → VRec
  | [] => v
  | kv :: rest => vsets (vset v kv.1 kv.2) rest

/-- The writes `BatterySection.compute` performs, each value in closed
form (reads of freshly written keys substituted, reads of the owner's
record `e_vals` kept). -/
def batteryWrites (pw : ℚ → ℚ → ℚ) (p : Params) (e_vals : VRec) :
    List (Key × RVal) :=
  let tech := p.technology "Battery Storage"
  let bc := vget e_vals Key.baseEnergyRequirement *
      (rq HOURS_PER_DAY * (rq 1 - vget e_vals Key.plannedCapacityFactor))
  let rte := rq tech.efficiency
  let bcn := bc / rte
  let inc := bcn - bc
  let incneed := inc / (rq HOURS_PER_DAY * vget e_vals Key.plannedCapacityFactor)
  let bcc := rq tech.basePlantCost *
      RVal.powP pw (bcn / rq tech.batteryCapacity) (rq tech.scalingFactor)
  let bfom := rq tech.baseFixedOM *
      RVal.powP pw (bcn / rq tech.batteryCapacity) (rq tech.scalingFactor) *
      rq MILLION / rq p.scale
  let bvom := rq tech.variableOM * bc / rq p.scale * rq DAYS_PER_YEAR
  [(Key.batteryCapacity, bc), (Key.roundTripEfficiency, rte),
   (Key.batteryCapacityNeeded, bcn), (Key.increasedMWh, inc),
   (Key.increasedNeedMW, incneed), (Key.batteryCapitalCost, bcc),
   (Key.batteryFixedOM, bfom), (Key.batteryVariableOM, bvom)]

/-- The two writes `EnergySection.compute` performs before the battery
step. -/
def preRec (p : Params) (src : String) (v : VRec) : VRec :=
  vset (vset v Key.plannedCapacityFactor (rq (p.technology src).availability))
    Key.baseEnergyRequirement (rq p.baseEnergyRequirement)

/-- The writes `EnergySection.compute` performs after the battery merge,
each value in closed form over the record `M` standing at that point
(the merged record when a battery is attached, `preRec` otherwise). -/
def energyPost (pw : ℚ → ℚ → ℚ) (p : Params) (src : String) (hasBat : Bool)
    (M : VRec) : List (Key × RVal) :=
  let tech := p.technology src
  let operational_hours := p.dacCapacityFactor * HOURS_PER_YEAR
  let ps0 := vget M Key.baseEnergyRequirement / vget M Key.plannedCapacityFactor
  let ps := if hasBat then ps0 + vget M Key.increasedNeedMW else ps0
  let on0 := rq tech.basePlantCost *
      RVal.powP pw (ps / rq tech.plantSize) (rq tech.scalingFactor)
  let ltm := rq (lead_time_mult p.wacc tech.leadTime)
  let cc := on0 * ltm
  let tcc := if hasBat then cc + vget M Key.batteryCapitalCost else cc
  let cr := tcc * rq (recovery_factor p) * rq MILLION / rq p.scale
  let pfom := rq tech.baseFixedOM *
      RVal.powP pw (ps / rq tech.plantSize) (rq tech.scalingFactor) *
      rq MILLION / rq p.scale
  let pvom := rq tech.variableOM * ps * rq operational_hours / rq p.scale
  let tfom := if hasBat then pfom + vget M Key.batteryFixedOM else pfom
  let tvom := if hasBat then pvom + vget M Key.batteryVariableOM else pvom
  let ngu := match tech.heatRate with
    | some hr =>
        rq operational_hours * ps * rq KW_TO_MW * rq hr / rq MILLION / rq p.scale
    | none => rq 0
  let ngc := ngu * rq p.naturalGasCost
  let em := ngu * rq tech.co2eq * rq LB_TO_METRIC_TON *
      (rq 1 - rq tech.captureEfficiency)
  let gross := cr + tfom + tvom
  let net := gross / (rq 1 - em)
  [(Key.plantSize, ps), (Key.overnightCost, on0), (Key.leadTimeMultiplier, ltm),
   (Key.capitalCost, cc), (Key.totalCapitalCost, tcc), (Key.capitalRecovery, cr),
   (Key.powerFixedOM, pfom), (Key.powerVariableOM, pvom),
   (Key.totalFixedOM, tfom), (Key.totalVariableOM, tvom),
   (Key.naturalGasUse, ngu), (Key.naturalGasCost, ngc), (Key.emitted, em),
   (Key.totalCostGross, gross), (Key.totalCostNet, net)]

/-- The composite writes of `DacModel.compute`, each value in closed
form over the energy-block totals `tev` and the DAC record `dv`. -/
def modelWrites (p : Params) (tev dv : VRec) : List (Key × RVal) :=
  let tcc := vget tev Key.totalCapitalCost + vget dv Key.capitalCostInclLeadTime
  let cr := tcc * rq (recovery_factor p) * rq MILLION / rq p.scale
  let fom := vget tev Key.fixedOM + vget dv Key.fixedOM
  let vom := vget tev Key.variableOM + vget dv Key.variableOM
  let ngc := vget tev Key.naturalGasCost
  let tc := cr + fom + vom + ngc
  [(Key.totalCapitalCost, tcc), (Key.capitalRecovery, cr), (Key.fixedOM, fom),
   (Key.variableOM, vom), (Key.naturalGasCostPerTCO2, ngc), (Key.totalCost, tc)]

/-!  ## The spec-side lead-time recurrence (for the refinement claim) -/

/-- Modelled from the spec's words for `leadTimeMultiplier`: the accrual
sequence `a[t] = r * sum(a[0..t-1]) + (1 + r)/n`; the single equation
also covers `a[0] = (1 + r)/n` through the empty sum. -/
def ltm_a (r : ℚ) (n : ℕ) : ℕ → ℚ
  | t =>
    r * (((List.range t).attach.map (fun i => ltm_a r n i.1)).sum) +
      (1 + r) / (n : ℚ)
  decreasing_by exact List.mem_range.mp i.2

/-- Modelled from the spec's words: `sum(a[0..n-1])`. -/
def ltm_spec (r : ℚ) (n : ℕ) : ℚ := ((List.range n).map (ltm_a r n)).sum

theorem ltm_a_eq (r : ℚ) (n t : ℕ) :
    ltm_a r n t = r * (((List.range t).map (ltm_a r n)).sum) + (1 + r) / n := by
  rw [ltm_a]
  congr 1
  congr 1
  rw [← List.attach_map_coe (List.range t) (ltm_a r n)]

theorem lead_time_vals_eq (r : ℚ) (n : ℕ) : ∀ k,
    (List.range k).foldl
      (fun acc _ => acc ++ [acc.sum * r + (1 + r) * (1 / (n : ℚ))])
      [(1 + r) * (1 / (n : ℚ))]
    = (List.range (k + 1)).map (ltm_a r n) := by
  intro k
  induction k with
  | zero =>
    rw [show List.range 1 = [0] from rfl]
    simp [ltm_a_eq, mul_one_div, div_eq_mul_inv]
  | succ k ih =>
    rw [List.range_succ, List.foldl_append, ih, List.range_succ (k + 1),
      List.map_append]
    simp only [List.foldl_cons, List.foldl_nil, List.map_cons, List.map_nil]
    congr 1
    rw [ltm_a_eq, mul_one_div]
    ring_nf

theorem vget_of_not_mem (v : VRec) (k : Key) (h : ¬ vmem v k) :
    vget v k = RVal.nan := by
  unfold vmem at h
  unfold vget
  cases hvk : v k with
  | none => rfl
  | some x => rw [hvk] at h; simp at h

/-- A placeholder technology entry for concrete witnesses. -/
def techOne : Tech :=
  { availability := 1, basePlantCost := 1, plantSize := 1, scalingFactor := 1
    baseFixedOM := 1, variableOM := 1, leadTime := 1, heatRate := none
    co2eq := 1, captureEfficiency := 1, efficiency := 1, batteryCapacity := 1 }

/-- A concrete well-formed parameter set for witnesses. -/
def pOne : Params :=
  { wacc := 1/10, economicLifetime := 2, scale := 1000000
    dacCapacityFactor := 9/10, naturalGasCost := 3, totalCapex := 100
    dacSectionLeadTime := 1, fixedOMCosts := 5, variableOMCost := 4
    baseEnergyRequirement := 47, requiredThermalEnergy := 664/100
    technology := fun _ => techOne }

/-- C2: `lead_time_mult` returns `sum(a[0..n-1])` for the spec's accrual
recurrence `a[0] = (1+r)/n`, `a[t] = r * sum(a[0..t-1]) + (1+r)/n`, for
every nonnegative rate and positive integer lead time; and for `n = 1`
it returns exactly `1 + r`, for every rate. -/
theorem lead_time_mult_spec (r : ℚ) (n : ℕ) (_hr : 0 ≤ r) (hn : 0 < n) :
    lead_time_mult r n = ltm_spec r n ∧ lead_time_mult r 1 = 1 + r := by
  constructor
  · unfold lead_time_mult lead_time_vals ltm_spec
    rw [lead_time_vals_eq r n (n - 1), Nat.sub_add_cancel hn]
  · unfold lead_time_mult lead_time_vals
    norm_num

theorem lead_time_mult_spec_witness :
    0 ≤ (1/10 : ℚ) ∧ 0 < 3 ∧
      (lead_time_mult (1/10) 3 = ltm_spec (1/10) 3 ∧
        lead_time_mult (1/10) 1 = 1 + 1/10) :=
  ⟨by norm_num, by norm_num, lead_time_mult_spec (1/10) 3 (by norm_num) (by norm_num)⟩

/-- C3: `recovery_factor` equals the closed-form annuity payment factor
`r * (1+r)^n / ((1+r)^n - 1)` for a positive rate, and `1/n` at rate
zero, for every positive economic lifetime `n`. -/
theorem recovery_factor_closed_form (p : Params) (hn : 0 < p.economicLifetime) :
    (0 < p.wacc →
      recovery_factor p =
        p.wacc * (1 + p.wacc) ^ p.economicLifetime /
          ((1 + p.wacc) ^ p.economicLifetime - 1)) ∧
    (p.wacc = 0 → recovery_factor p = 1 / p.economicLifetime) := by
  constructor
  · intro hr
    unfold recovery_factor npf_pmt
    dsimp only
    rw [if_neg (ne_of_gt hr)]
    have h1 : (1 : ℚ) < (1 + p.wacc) ^ p.economicLifetime :=
      one_lt_pow₀ (by linarith) hn.ne'
    have h2 : (1 + p.wacc) ^ p.economicLifetime - 1 ≠ 0 :=
      sub_ne_zero.mpr (ne_of_gt h1)
    field_simp
    ring_nf
  · intro hr
    unfold recovery_factor npf_pmt
    dsimp only
    rw [if_pos hr, hr]
    rw [one_mul, neg_div, neg_neg, one_div]
    norm_num

/-- C7: `EnergySection` construction succeeds exactly on the five valid
technology names and otherwise fails with a validation error carrying
the offending value and the allowed set; `NgThermalSection` construction
succeeds exactly on the two gas-capable names and otherwise fails with a
validation error carrying the offending value. -/
theorem construction_validation (p : Params) (source : String)
    (battery : Option BatterySection) :
    ((∃ s, mkEnergySection p source battery = Except.ok s) ↔
      source ∈ VALID_ENERGYSOURCES) ∧
    (source ∉ VALID_ENERGYSOURCES →
      mkEnergySection p source battery =
        Except.error (InitError.invalidEnergySource source VALID_ENERGYSOURCES)) ∧
    ((∃ s, mkNgThermalSection p source battery = Except.ok s) ↔
      source ∈ ["NGCC w/ CCS", "Advanced NGCC"]) ∧
    (source ∉ ["NGCC w/ CCS", "Advanced NGCC"] →
      mkNgThermalSection p source battery =
        Except.error (InitError.invalidNaturalGasSource source)) := by
  have hsub : source ∈ ["NGCC w/ CCS", "Advanced NGCC"] →
      source ∈ VALID_ENERGYSOURCES := by
    intro h
    rcases List.mem_cons.mp h with h1 | h2
    · rw [h1]; decide
    · rcases List.mem_cons.mp h2 with h3 | h4
      · rw [h3]; decide
      · cases h4
  refine ⟨?_, ?_, ?_, ?_⟩
  · unfold mkEnergySection
    by_cases h : source ∈ VALID_ENERGYSOURCES
    · simp [h]
    · simp [h]
  · intro h
    unfold mkEnergySection
    rw [if_neg h]
  · unfold mkNgThermalSection mkEnergySection
    by_cases h : source ∈ ["NGCC w/ CCS", "Advanced NGCC"]
    · simp [h, hsub h]
    · simp [h]
  · intro h
    unfold mkNgThermalSection
    rw [if_neg h]

theorem construction_validation_witness :
    ("Geothermal" ∉ VALID_ENERGYSOURCES ∧
      mkEnergySection pOne "Geothermal" none =
        Except.error (InitError.invalidEnergySource "Geothermal" VALID_ENERGYSOURCES)) ∧
    ("Wind" ∉ ["NGCC w/ CCS", "Advanced NGCC"] ∧
      mkNgThermalSection pOne "Wind" none =
        Except.error (InitError.invalidNaturalGasSource "Wind")) :=
  ⟨⟨by decide, (construction_validation pOne "Geothermal" none).2.1 (by decide)⟩,
    ⟨by decide, (construction_validation pOne "Wind" none).2.2.2 (by decide)⟩⟩

/-- C8 (amended): looking up a key no compute pass has written in a
`ValueRecord` yields `nan` (never zero), and `nan` propagates through
every downstream arithmetic operation; but the parameter set is a plain
dict, so a missing required parameter key raises `KeyError` (an
exception) instead of yielding `nan`. -/
theorem missing_value_lookup_nan (v : VRec) (k : Key) (x : RVal)
    (h : ¬ vmem v k) :
    vget v k = RVal.nan ∧
    vget v k ≠ rq 0 ∧
    (RVal.nan + x = RVal.nan ∧ x + RVal.nan = RVal.nan ∧
     RVal.nan - x = RVal.nan ∧ x - RVal.nan = RVal.nan ∧
     RVal.nan * x = RVal.nan ∧ x * RVal.nan = RVal.nan ∧
     RVal.nan / x = RVal.nan ∧ x / RVal.nan = RVal.nan) ∧
    (∀ pw : ℚ → ℚ → ℚ, RVal.powP pw RVal.nan x = RVal.nan ∧
      RVal.powP pw x RVal.nan = RVal.nan) ∧
    (∀ d : List (String × ℚ), ∀ key : String, d.lookup key = none →
      dict_getitem d key = Except.error ("KeyError: " ++ key)) := by
  have hk : v k = none := by
    unfold vmem at h
    cases hvk : v k with
    | none => rfl
    | some x => rw [hvk] at h; simp at h
  refine ⟨?_, ?_, ?_, ?_, ?_⟩
  · unfold vget; rw [hk]; rfl
  · unfold vget; rw [hk]; simp
  · cases x <;> exact ⟨rfl, rfl, rfl, rfl, rfl, rfl, rfl, rfl⟩
  · intro pw; cases x <;> exact ⟨rfl, rfl⟩
  · intro d key hnone
    unfold dict_getitem
    rw [hnone]

theorem missing_value_lookup_nan_witness :
    ¬ vmem vempty Key.totalCost ∧ vget vempty Key.totalCost = RVal.nan :=
  ⟨by decide,
    (missing_value_lookup_nan vempty Key.totalCost (rq 1) (by decide)).1⟩

/-- C8 counterexample: the claim says a missing required parameter key
yields `nan` and never an exception; but `self.params` is a plain dict,
so indexing a parameter set that lacks "WACC [%]" raises `KeyError`. -/
theorem params_missing_key_raises :
    dict_getitem [("Scale [tCO2/year]", 1000000)] "WACC [%]" =
      Except.error ("KeyError: WACC [%]") := by
  rfl

/-- C6: `NgThermalSection.compute` zeroes plant size, total capital
cost, capital recovery and both O&M totals; records natural gas use as
`Required Thermal Energy × 0.94709 × Scale` divided by `Scale`; prices
it at `Natural Gas Cost [$/mmBTU]`; and sets the emitted fraction to
exactly 0. -/
theorem ngthermal_compute (s : EnergySection) (h : s.params.scale ≠ 0) :
    vget (computeNgThermal s).values Key.plantSize = rq 0 ∧
    vget (computeNgThermal s).values Key.totalCapitalCost = rq 0 ∧
    vget (computeNgThermal s).values Key.capitalRecovery = rq 0 ∧
    vget (computeNgThermal s).values Key.totalFixedOM = rq 0 ∧
    vget (computeNgThermal s).values Key.totalVariableOM = rq 0 ∧
    vget (computeNgThermal s).values Key.naturalGasUse =
      rq (s.params.requiredThermalEnergy * GJ_TO_MMBTU) ∧
    vget (computeNgThermal s).values Key.naturalGasCost =
      vget (computeNgThermal s).values Key.naturalGasUse *
        rq s.params.naturalGasCost ∧
    vget (computeNgThermal s).values Key.emitted = rq 0 := by
  refine ⟨?_, ?_, ?_, ?_, ?_, ?_, ?_, ?_⟩ <;>
    simp [computeNgThermal, vget_vset, h, mul_div_assoc, div_self h]

theorem ngthermal_compute_witness :
    pOne.scale ≠ 0 ∧
      vget (computeNgThermal ⟨pOne, "Advanced NGCC", none, vempty⟩).values
          Key.naturalGasUse =
        rq (pOne.requiredThermalEnergy * GJ_TO_MMBTU) :=
  ⟨by norm_num [pOne],
    (ngthermal_compute ⟨pOne, "Advanced NGCC", none, vempty⟩
      (by norm_num [pOne])).2.2.2.2.2.1⟩

/-- C5 (amended): `DacSection.compute` stores the lead-time-adjusted
capital (`Total Capex × lead-time multiplier`) under "Capital Cost
(including Lead Time) [M$]", but computes its own Capital Recovery from
the UNadjusted `Total Capex [$]` (times the recovery factor times 1e6
over Scale); Fixed and Variable O&M pass through unchanged from the
parameters. -/
theorem dacsection_compute (s : DacSection) :
    vget (computeDac s).values Key.capitalCostInclLeadTime =
      rq s.params.totalCapex *
        rq (lead_time_mult s.params.wacc s.params.dacSectionLeadTime) ∧
    vget (computeDac s).values Key.capitalRecovery =
      rq s.params.totalCapex * rq (recovery_factor s.params) * rq MILLION /
        rq s.params.scale ∧
    vget (computeDac s).values Key.fixedOM = rq s.params.fixedOMCosts ∧
    vget (computeDac s).values Key.variableOM = rq s.params.variableOMCost := by
  refine ⟨?_, ?_, ?_, ?_⟩ <;> simp [computeDac, vget_vset]

/-- C5 counterexample: at `pOne` (WACC 10%, DAC lead time 1 year, so the
lead-time multiplier is 1.1 ≠ 1) the recorded Capital Recovery differs
from the claimed lead-time-adjusted formula. -/
theorem dacsection_capital_recovery_cex :
    vget (computeDac ⟨pOne, vempty⟩).values Key.capitalRecovery ≠
      rq pOne.totalCapex *
        rq (lead_time_mult pOne.wacc pOne.dacSectionLeadTime) *
        rq (recovery_factor pOne) * rq MILLION / rq pOne.scale := by
  have hlhs : vget (computeDac ⟨pOne, vempty⟩).values Key.capitalRecovery =
      rq (1210 / 21) := by
    simp [computeDac, vget_vset]
    norm_num [pOne, MILLION, recovery_factor, npf_pmt]
  have hrhs : rq pOne.totalCapex *
      rq (lead_time_mult pOne.wacc pOne.dacSectionLeadTime) *
      rq (recovery_factor pOne) * rq MILLION / rq pOne.scale =
      rq (1331 / 21) := by
    norm_num [pOne, MILLION, recovery_factor, npf_pmt, lead_time_mult,
      lead_time_vals]
  rw [hlhs, hrhs]
  intro hEq
  rw [RVal.val_injective] at hEq
  norm_num at hEq

theorem recovery_factor_closed_form_witness :
    0 < pOne.economicLifetime ∧ 0 < pOne.wacc ∧
      recovery_factor pOne =
        pOne.wacc * (1 + pOne.wacc) ^ pOne.economicLifetime /
          ((1 + pOne.wacc) ^ pOne.economicLifetime - 1) :=
  ⟨by norm_num [pOne], by norm_num [pOne],
    (recovery_factor_closed_form pOne (by norm_num [pOne])).1 (by norm_num [pOne])⟩

/-- C4: `DacModel.compute` sets the composite total capital cost to the
energy-block total plus the DAC section's lead-time-adjusted capital;
recomputes capital recovery from that grand total with the model's own
recovery factor (times 1e6 over Scale), not as a sum of the parts'
recoveries; sums fixed and variable O&M from the energy-block total and
the DAC section; and sets Total Cost to capital recovery + fixed O&M +
variable O&M + natural gas cost. -/
theorem dacmodel_composite (pw : ℚ → ℚ → ℚ) (m : DacModel) :
    vget (computeDacModel pw m).values Key.totalCapitalCost =
      vget (energyTotals pw m.params m.electric m.thermal) Key.totalCapitalCost +
        vget (computeDac m.dac).values Key.capitalCostInclLeadTime ∧
    vget (computeDacModel pw m).values Key.capitalRecovery =
      vget (computeDacModel pw m).values Key.totalCapitalCost *
        rq (recovery_factor m.params) * rq MILLION / rq m.params.scale ∧
    vget (computeDacModel pw m).values Key.fixedOM =
      vget (energyTotals pw m.params m.electric m.thermal) Key.fixedOM +
        vget (computeDac m.dac).values Key.fixedOM ∧
    vget (computeDacModel pw m).values Key.variableOM =
      vget (energyTotals pw m.params m.electric m.thermal) Key.variableOM +
        vget (computeDac m.dac).values Key.variableOM ∧
    vget (computeDacModel pw m).values Key.naturalGasCostPerTCO2 =
      vget (energyTotals pw m.params m.electric m.thermal) Key.naturalGasCost ∧
    vget (computeDacModel pw m).values Key.totalCost =
      vget (computeDacModel pw m).values Key.capitalRecovery +
        vget (computeDacModel pw m).values Key.fixedOM +
        vget (computeDacModel pw m).values Key.variableOM +
        vget (computeDacModel pw m).values Key.naturalGasCostPerTCO2 := by
  refine ⟨?_, ?_, ?_, ?_, ?_, ?_⟩ <;>
    simp [computeDacModel, vget_vset]

/-- C10: in `_combined_power_block_requirements` the battery
contribution is keyed solely on `"Battery Capacity Needed [MWh]"` being
present in the ELECTRIC record: when absent, all four combined battery
fields are exactly 0 and the total capital cost is the power capital
plus 0 — even when the thermal record carries battery values, which are
then silently excluded; when present while the thermal record lacks the
key, the missing thermal lookup reads as nan, making the combined
battery capacity, battery capital cost and total capital cost nan. -/
theorem combined_battery_keying (pw : ℚ → ℚ → ℚ) (p : Params)
    (source : String) (ev tv : VRec) :
    (¬ vmem ev Key.batteryCapacityNeeded →
      (vget (combinedPowerBlock pw p source ev tv) Key.batteryCapacity = rq 0 ∧
       vget (combinedPowerBlock pw p source ev tv) Key.batteryCapitalCost = rq 0 ∧
       vget (combinedPowerBlock pw p source ev tv) Key.batteryFixedOM = rq 0 ∧
       vget (combinedPowerBlock pw p source ev tv) Key.batteryVariableOM = rq 0 ∧
       vget (combinedPowerBlock pw p source ev tv) Key.totalCapitalCost =
         vget (combinedPowerBlock pw p source ev tv) Key.capitalCost + rq 0)) ∧
    (vmem ev Key.batteryCapacityNeeded →
      ¬ vmem tv Key.batteryCapacityNeeded →
      (vget (combinedPowerBlock pw p source ev tv) Key.batteryCapacity =
        RVal.nan ∧
       vget (combinedPowerBlock pw p source ev tv) Key.batteryCapitalCost =
        RVal.nan ∧
       vget (combinedPowerBlock pw p source ev tv) Key.totalCapitalCost =
        RVal.nan)) := by
  constructor
  · intro h
    unfold combinedPowerBlock
    dsimp only
    rw [if_neg h]
    refine ⟨?_, ?_, ?_, ?_, ?_⟩ <;> simp [vget_vset]
  · intro he ht
    unfold combinedPowerBlock
    dsimp only
    rw [if_pos he]
    rw [vget_of_not_mem tv Key.batteryCapacityNeeded ht]
    refine ⟨?_, ?_, ?_⟩ <;> simp [vget_vset]

theorem combined_battery_keying_witness :
    (¬ vmem (vset vempty Key.plantSize (rq 1)) Key.batteryCapacityNeeded ∧
      vget (combinedPowerBlock (fun b _ => b * b) pOne "Solar"
          (vset vempty Key.plantSize (rq 1))
          (vset vempty Key.batteryCapacityNeeded (rq 5)))
        Key.batteryCapitalCost = rq 0) ∧
    (vmem (vset vempty Key.batteryCapacityNeeded (rq 5))
        Key.batteryCapacityNeeded ∧
      ¬ vmem (vset vempty Key.plantSize (rq 1)) Key.batteryCapacityNeeded ∧
      vget (combinedPowerBlock (fun b _ => b * b) pOne "Solar"
          (vset vempty Key.batteryCapacityNeeded (rq 5))
          (vset vempty Key.plantSize (rq 1)))
        Key.totalCapitalCost = RVal.nan) :=
  ⟨⟨by decide,
    ((combined_battery_keying (fun b _ => b * b) pOne "Solar"
        (vset vempty Key.plantSize (rq 1))
        (vset vempty Key.batteryCapacityNeeded (rq 5))).1 (by decide)).2.1⟩,
   ⟨by decide, by decide,
    ((combined_battery_keying (fun b _ => b * b) pOne "Solar"
        (vset vempty Key.batteryCapacityNeeded (rq 5))
        (vset vempty Key.plantSize (rq 1))).2 (by decide) (by decide)).2.2⟩⟩

/-!  ## Idempotence of the compute passes (C9) -/

theorem vsets_app_not_mem (L : List (Key × RVal)) :
    ∀ (v : VRec) (k : Key), k ∉ L.map Prod.fst → vsets v L k = v k := by
  induction L with
  | nil => intro v k h; rfl
  | cons kv rest ih =>
    intro v k h
    rw [List.map_cons, List.mem_cons] at h
    push_neg at h
    show vsets (vset v kv.1 kv.2) rest k = v k
    rw [ih _ _ h.2, vset_app, if_neg h.1]

theorem vsets_app_indep (L : List (Key × RVal)) :
    ∀ (v w : VRec) (k : Key), k ∈ L.map Prod.fst → vsets v L k = vsets w L k := by
  induction L with
  | nil => intro v w k h; cases h
  | cons kv rest ih =>
    intro v w k h
    by_cases hk : k ∈ rest.map Prod.fst
    · exact ih _ _ _ hk
    · have hek : k = kv.1 := by
        rw [List.map_cons, List.mem_cons] at h
        tauto
      show vsets (vset v kv.1 kv.2) rest k = vsets (vset w kv.1 kv.2) rest k
      rw [vsets_app_not_mem rest _ _ hk, vsets_app_not_mem rest _ _ hk,
        vset_app, vset_app, if_pos hek, if_pos hek]

theorem vsets_isSome_of_mem (L : List (Key × RVal)) :
    ∀ (v : VRec) (k : Key), k ∈ L.map Prod.fst → (vsets v L k).isSome := by
  induction L with
  | nil => intro v k h; cases h
  | cons kv rest ih =>
    intro v k h
    by_cases hk : k ∈ rest.map Prod.fst
    · exact ih _ _ hk
    · have hek : k = kv.1 := by
        rw [List.map_cons, List.mem_cons] at h
        tauto
      show (vsets (vset v kv.1 kv.2) rest k).isSome
      rw [vsets_app_not_mem rest _ _ hk, vset_app, if_pos hek]
      rfl

theorem vsets_idem (L : List (Key × RVal)) (v : VRec) :
    vsets (vsets v L) L = vsets v L := by
  funext k
  by_cases h : k ∈ L.map Prod.fst
  · exact vsets_app_indep L _ _ k h
  · rw [vsets_app_not_mem L _ k h, vsets_app_not_mem L _ k h]

theorem vget_vsets_not_mem (L : List (Key × RVal)) (v : VRec) (k : Key)
    (h : k ∉ L.map Prod.fst) : vget (vsets v L) k = vget v k := by
  unfold vget
  rw [vsets_app_not_mem L v k h]

theorem vget_vupdate_congr (u1 u2 w : VRec) (k : Key) (h : u1 k = u2 k) :
    vget (vupdate u1 w) k = vget (vupdate u2 w) k := by
  unfold vget vupdate
  rw [h]

theorem vget_vupdate_of_mem (u1 u2 w : VRec) (k : Key) (h : (w k).isSome) :
    vget (vupdate u1 w) k = vget (vupdate u2 w) k := by
  unfold vget vupdate
  cases hw : w k with
  | none => simp [hw] at h
  | some x => rfl

theorem batteryWrites_keys (pw : ℚ → ℚ → ℚ) (p : Params) (e_vals : VRec) :
    (batteryWrites pw p e_vals).map Prod.fst =
      [Key.batteryCapacity, Key.roundTripEfficiency, Key.batteryCapacityNeeded,
       Key.increasedMWh, Key.increasedNeedMW, Key.batteryCapitalCost,
       Key.batteryFixedOM, Key.batteryVariableOM] := rfl

theorem energyPost_keys (pw : ℚ → ℚ → ℚ) (p : Params) (src : String)
    (hb : Bool) (M : VRec) :
    (energyPost pw p src hb M).map Prod.fst =
      [Key.plantSize, Key.overnightCost, Key.leadTimeMultiplier,
       Key.capitalCost, Key.totalCapitalCost, Key.capitalRecovery,
       Key.powerFixedOM, Key.powerVariableOM, Key.totalFixedOM,
       Key.totalVariableOM, Key.naturalGasUse, Key.naturalGasCost, Key.emitted,
       Key.totalCostGross, Key.totalCostNet] := rfl

theorem batteryWrites_congr (pw : ℚ → ℚ → ℚ) (p : Params) (e e' : VRec)
    (h1 : vget e Key.baseEnergyRequirement = vget e' Key.baseEnergyRequirement)
    (h2 : vget e Key.plannedCapacityFactor = vget e' Key.plannedCapacityFactor) :
    batteryWrites pw p e = batteryWrites pw p e' := by
  unfold batteryWrites
  rw [h1, h2]

theorem energyPost_congr (pw : ℚ → ℚ → ℚ) (p : Params) (src : String)
    (hb : Bool) (M M' : VRec)
    (h1 : vget M Key.baseEnergyRequirement = vget M' Key.baseEnergyRequirement)
    (h2 : vget M Key.plannedCapacityFactor = vget M' Key.plannedCapacityFactor)
    (h3 : vget M Key.increasedNeedMW = vget M' Key.increasedNeedMW)
    (h4 : vget M Key.batteryCapitalCost = vget M' Key.batteryCapitalCost)
    (h5 : vget M Key.batteryFixedOM = vget M' Key.batteryFixedOM)
    (h6 : vget M Key.batteryVariableOM = vget M' Key.batteryVariableOM) :
    energyPost pw p src hb M = energyPost pw p src hb M' := by
  unfold energyPost
  rw [h1, h2, h3, h4, h5, h6]

theorem preRec_app_ber (p : Params) (src : String) (w : VRec) :
    preRec p src w Key.baseEnergyRequirement =
      some (rq p.baseEnergyRequirement) := rfl

theorem preRec_app_pcf (p : Params) (src : String) (w : VRec) :
    preRec p src w Key.plannedCapacityFactor =
      some (rq (p.technology src).availability) := rfl

theorem preRec_ber (p : Params) (src : String) (w : VRec) :
    vget (preRec p src w) Key.baseEnergyRequirement =
      rq p.baseEnergyRequirement := rfl

theorem preRec_pcf (p : Params) (src : String) (w : VRec) :
    vget (preRec p src w) Key.plannedCapacityFactor =
      rq (p.technology src).availability := rfl

theorem preRec_other (p : Params) (src : String) (w : VRec) (k : Key)
    (h1 : k ≠ Key.baseEnergyRequirement) (h2 : k ≠ Key.plannedCapacityFactor) :
    preRec p src w k = w k := by
  unfold preRec
  rw [vset_app, if_neg h1, vset_app, if_neg h2]

theorem vget_preRec_other (p : Params) (src : String) (w : VRec) (k : Key)
    (h1 : k ≠ Key.baseEnergyRequirement) (h2 : k ≠ Key.plannedCapacityFactor) :
    vget (preRec p src w) k = vget w k := by
  unfold vget
  rw [preRec_other p src w k h1 h2]

set_option maxHeartbeats 1000000 in
theorem computeBattery_norm (pw : ℚ → ℚ → ℚ) (s : BatterySection)
    (e_vals : VRec) :
    computeBattery pw s e_vals =
      ⟨s.params, vsets s.values (batteryWrites pw s.params e_vals)⟩ := by
  unfold computeBattery batteryWrites
  dsimp only
  congr 1

theorem computeBattery_idem (pw : ℚ → ℚ → ℚ) (s : BatterySection)
    (e_vals : VRec) :
    computeBattery pw (computeBattery pw s e_vals) e_vals =
      computeBattery pw s e_vals := by
  rw [computeBattery_norm pw s e_vals, computeBattery_norm]
  dsimp only
  rw [vsets_idem]

set_option maxHeartbeats 1000000 in
theorem computeNgThermal_idem (s : EnergySection) :
    computeNgThermal (computeNgThermal s) = computeNgThermal s := by
  unfold computeNgThermal
  dsimp only
  congr 1
  funext k
  cases k <;> rfl

set_option maxHeartbeats 1000000 in
theorem computeDac_idem (s : DacSection) :
    computeDac (computeDac s) = computeDac s := by
  unfold computeDac
  dsimp only
  congr 1
  funext k
  cases k <;> rfl

set_option maxHeartbeats 1000000 in
theorem computeEnergy_norm_none (pw : ℚ → ℚ → ℚ) (p : Params) (src : String)
    (v : VRec) :
    computeEnergy pw ⟨p, src, none, v⟩ =
      ⟨p, src, none,
        vsets (preRec p src v) (energyPost pw p src false (preRec p src v))⟩ := by
  cases hhr : (p.technology src).heatRate with
  | none =>
    unfold computeEnergy energyPost preRec
    dsimp only
    simp only [hhr]
    congr 1
  | some q =>
    unfold computeEnergy energyPost preRec
    dsimp only
    simp only [hhr]
    congr 1

set_option maxHeartbeats 1000000 in
theorem computeEnergy_norm_some (pw : ℚ → ℚ → ℚ) (p : Params) (src : String)
    (b : BatterySection) (v : VRec) :
    computeEnergy pw ⟨p, src, some b, v⟩ =
      ⟨p, src, some (computeBattery pw b (preRec p src v)),
        vsets
          (vupdate (preRec p src v) (computeBattery pw b (preRec p src v)).values)
          (energyPost pw p src true
            (vupdate (preRec p src v)
              (computeBattery pw b (preRec p src v)).values))⟩ := by
  cases hhr : (p.technology src).heatRate with
  | none =>
    unfold computeEnergy energyPost preRec
    dsimp only
    simp only [hhr]
    congr 1
    funext k
    cases k <;> rfl
  | some q =>
    unfold computeEnergy energyPost preRec
    dsimp only
    simp only [hhr]
    congr 1
    funext k
    cases k <;> rfl

theorem vupdate_congr_at (u1 u2 w : VRec) (k : Key) (h : u1 k = u2 k) :
    vupdate u1 w k = vupdate u2 w k := by
  unfold vupdate
  rw [h]

theorem vupdate_pointwise_absorb (u1 u2 w : VRec) (k : Key)
    (h : u1 k = vupdate u2 w k) : vupdate u1 w k = vupdate u2 w k := by
  have h2 : u1 k = (w k).elim (u2 k) some := h
  show (w k).elim (u1 k) some = (w k).elim (u2 k) some
  generalize hw : w k = ow at h2 ⊢
  cases ow with
  | none => exact h2
  | some x => rfl

theorem computeBattery_pre_stable (pw : ℚ → ℚ → ℚ) (p : Params) (src : String)
    (b : BatterySection) (u w : VRec) :
    computeBattery pw (computeBattery pw b (preRec p src u)) (preRec p src w) =
      computeBattery pw b (preRec p src u) := by
  rw [computeBattery_norm pw (computeBattery pw b (preRec p src u)),
    computeBattery_norm pw b (preRec p src u)]
  dsimp only
  rw [batteryWrites_congr pw b.params (preRec p src w) (preRec p src u)
    ((preRec_ber p src w).trans (preRec_ber p src u).symm)
    ((preRec_pcf p src w).trans (preRec_pcf p src u).symm)]
  rw [vsets_idem]

theorem computeBattery_values_isSome (pw : ℚ → ℚ → ℚ) (b : BatterySection)
    (e : VRec) (k : Key)
    (h : k ∈ (batteryWrites pw b.params e).map Prod.fst) :
    ((computeBattery pw b e).values k).isSome := by
  rw [computeBattery_norm pw b e]
  dsimp only
  exact vsets_isSome_of_mem _ _ _ h

set_option maxHeartbeats 1000000 in
theorem computeEnergy_idem (pw : ℚ → ℚ → ℚ) (s : EnergySection) :
    computeEnergy pw (computeEnergy pw s) = computeEnergy pw s := by
  cases s with
  | mk p src bat v =>
    cases bat with
    | none =>
      rw [computeEnergy_norm_none pw p src v, computeEnergy_norm_none pw p src _]
      generalize hV : vsets (preRec p src v)
        (energyPost pw p src false (preRec p src v)) = V1
      refine congrArg (EnergySection.mk p src none) ?_
      have hPW : energyPost pw p src false (preRec p src V1) =
          energyPost pw p src false (preRec p src v) := by
        refine energyPost_congr pw p src false _ _ ?_ ?_ ?_ ?_ ?_ ?_
        · exact (preRec_ber p src V1).trans (preRec_ber p src v).symm
        · exact (preRec_pcf p src V1).trans (preRec_pcf p src v).symm
        · rw [vget_preRec_other p src V1 Key.increasedNeedMW (by decide)
            (by decide), ← hV]
          exact vget_vsets_not_mem _ _ _ (by rw [energyPost_keys]; decide)
        · rw [vget_preRec_other p src V1 Key.batteryCapitalCost (by decide)
            (by decide), ← hV]
          exact vget_vsets_not_mem _ _ _ (by rw [energyPost_keys]; decide)
        · rw [vget_preRec_other p src V1 Key.batteryFixedOM (by decide)
            (by decide), ← hV]
          exact vget_vsets_not_mem _ _ _ (by rw [energyPost_keys]; decide)
        · rw [vget_preRec_other p src V1 Key.batteryVariableOM (by decide)
            (by decide), ← hV]
          exact vget_vsets_not_mem _ _ _ (by rw [energyPost_keys]; decide)
      rw [hPW, ← hV]
      funext k
      by_cases hk : k ∈ (energyPost pw p src false (preRec p src v)).map Prod.fst
      · exact vsets_app_indep _ _ _ _ hk
      · refine (vsets_app_not_mem _ _ _ hk).trans
          (Eq.trans ?_ (vsets_app_not_mem _ _ _ hk).symm)
        by_cases hb : k = Key.baseEnergyRequirement
        · subst hb
          exact (preRec_app_ber p src _).trans (preRec_app_ber p src v).symm
        · by_cases hp : k = Key.plannedCapacityFactor
          · subst hp
            exact (preRec_app_pcf p src _).trans (preRec_app_pcf p src v).symm
          · exact (preRec_other p src _ k hb hp).trans
              (vsets_app_not_mem _ _ _ hk)
    | some b =>
      rw [computeEnergy_norm_some pw p src b v,
        computeEnergy_norm_some pw p src _ _,
        computeBattery_pre_stable pw p src b v _]
      generalize hV : vsets
        (vupdate (preRec p src v) (computeBattery pw b (preRec p src v)).values)
        (energyPost pw p src true
          (vupdate (preRec p src v)
            (computeBattery pw b (preRec p src v)).values)) = V1
      refine congrArg
        (EnergySection.mk p src (some (computeBattery pw b (preRec p src v)))) ?_
      have hPW : energyPost pw p src true
          (vupdate (preRec p src V1)
            (computeBattery pw b (preRec p src v)).values) =
          energyPost pw p src true
            (vupdate (preRec p src v)
              (computeBattery pw b (preRec p src v)).values) := by
        refine energyPost_congr pw p src true _ _ ?_ ?_ ?_ ?_ ?_ ?_
        · exact vget_vupdate_congr _ _ _ _
            ((preRec_app_ber p src V1).trans (preRec_app_ber p src v).symm)
        · exact vget_vupdate_congr _ _ _ _
            ((preRec_app_pcf p src V1).trans (preRec_app_pcf p src v).symm)
        · exact vget_vupdate_of_mem _ _ _ _
            (computeBattery_values_isSome pw b _ _
              (by rw [batteryWrites_keys]; decide))
        · exact vget_vupdate_of_mem _ _ _ _
            (computeBattery_values_isSome pw b _ _
              (by rw [batteryWrites_keys]; decide))
        · exact vget_vupdate_of_mem _ _ _ _
            (computeBattery_values_isSome pw b _ _
              (by rw [batteryWrites_keys]; decide))
        · exact vget_vupdate_of_mem _ _ _ _
            (computeBattery_values_isSome pw b _ _
              (by rw [batteryWrites_keys]; decide))
      rw [hPW, ← hV]
      funext k
      by_cases hk : k ∈ (energyPost pw p src true
          (vupdate (preRec p src v)
            (computeBattery pw b (preRec p src v)).values)).map Prod.fst
      · exact vsets_app_indep _ _ _ _ hk
      · refine (vsets_app_not_mem _ _ _ hk).trans
          (Eq.trans ?_ (vsets_app_not_mem _ _ _ hk).symm)
        by_cases hb2 : k = Key.baseEnergyRequirement
        · subst hb2
          exact vupdate_congr_at _ _ _ _
            ((preRec_app_ber p src _).trans (preRec_app_ber p src v).symm)
        · by_cases hp : k = Key.plannedCapacityFactor
          · subst hp
            exact vupdate_congr_at _ _ _ _
              ((preRec_app_pcf p src _).trans (preRec_app_pcf p src v).symm)
          · exact vupdate_pointwise_absorb _ _ _ _
              ((preRec_other p src _ k hb2 hp).trans
                (vsets_app_not_mem _ _ _ hk))

theorem computeComponent_source (pw : ℚ → ℚ → ℚ) (e : EnergyComponent) :
    (EnergyComponent.compute pw e).source = e.source := by
  cases e <;> rfl

theorem computeComponent_idem (pw : ℚ → ℚ → ℚ) (e : EnergyComponent) :
    EnergyComponent.compute pw (EnergyComponent.compute pw e) =
      EnergyComponent.compute pw e := by
  cases e with
  | standard s =>
    show EnergyComponent.standard (computeEnergy pw (computeEnergy pw s)) =
      EnergyComponent.standard (computeEnergy pw s)
    rw [computeEnergy_idem]
  | ngThermal s =>
    show EnergyComponent.ngThermal (computeNgThermal (computeNgThermal s)) =
      EnergyComponent.ngThermal (computeNgThermal s)
    rw [computeNgThermal_idem]

theorem energyTotals_stable (pw : ℚ → ℚ → ℚ) (p : Params)
    (e t : EnergyComponent) :
    energyTotals pw p (EnergyComponent.compute pw e)
      (EnergyComponent.compute pw t) = energyTotals pw p e t := by
  unfold energyTotals
  dsimp only
  rw [computeComponent_idem, computeComponent_idem, computeComponent_source,
    computeComponent_source]

theorem computeDacModel_norm (pw : ℚ → ℚ → ℚ) (m : DacModel) :
    computeDacModel pw m =
      ⟨m.params, EnergyComponent.compute pw m.electric,
        EnergyComponent.compute pw m.thermal, computeDac m.dac,
        vsets m.values
          (modelWrites m.params
            (energyTotals pw m.params m.electric m.thermal)
            (computeDac m.dac).values)⟩ := by
  unfold computeDacModel modelWrites
  dsimp only
  congr 1

theorem computeDacModel_idem (pw : ℚ → ℚ → ℚ) (m : DacModel) :
    computeDacModel pw (computeDacModel pw m) = computeDacModel pw m := by
  rw [computeDacModel_norm pw m, computeDacModel_norm pw _]
  dsimp only
  rw [computeComponent_idem, computeComponent_idem, computeDac_idem,
    energyTotals_stable, vsets_idem]

/-- C9: `compute()` is idempotent for every block type — BatterySection,
EnergySection, NgThermalSection, DacSection and the composite DacModel:
a second call with unchanged parameters reproduces exactly the state and
ValueRecord of the first call (every key maps to the same value, nothing
accumulates). -/
theorem compute_idempotent (pw : ℚ → ℚ → ℚ) :
    (∀ (s : BatterySection) (e_vals : VRec),
      computeBattery pw (computeBattery pw s e_vals) e_vals =
        computeBattery pw s e_vals) ∧
    (∀ s : EnergySection,
      computeEnergy pw (computeEnergy pw s) = computeEnergy pw s) ∧
    (∀ s : EnergySection,
      computeNgThermal (computeNgThermal s) = computeNgThermal s) ∧
    (∀ s : DacSection, computeDac (computeDac s) = computeDac s) ∧
    (∀ m : DacModel,
      computeDacModel pw (computeDacModel pw m) = computeDacModel pw m) :=
  ⟨computeBattery_idem pw, computeEnergy_idem pw, computeNgThermal_idem,
    computeDac_idem, computeDacModel_idem pw⟩

/-!  ## The combined vs independent power-block branch (C1) -/

theorem energy_nobat_no_bcn (pw : ℚ → ℚ → ℚ) (p : Params) (src : String) :
    ¬ vmem (computeEnergy pw ⟨p, src, none, vempty⟩).values
      Key.batteryCapacityNeeded := by
  rw [computeEnergy_norm_none]
  dsimp only
  unfold vmem
  rw [vsets_app_not_mem _ _ _ (by rw [energyPost_keys]; decide),
    preRec_other p src _ _ (by decide) (by decide)]
  simp [vempty]

theorem energy_nobat_ps (pw : ℚ → ℚ → ℚ) (p : Params) (src : String)
    (hav : (p.technology src).availability ≠ 0) :
    vget (computeEnergy pw ⟨p, src, none, vempty⟩).values Key.plantSize =
      rq (p.baseEnergyRequirement / (p.technology src).availability) := by
  rw [computeEnergy_norm_none]
  dsimp only
  simp [vsets, energyPost, preRec, vget, vset, vempty, hav]

theorem energy_nobat_tcc (pw : ℚ → ℚ → ℚ) (p : Params) (src : String)
    (hav : (p.technology src).availability ≠ 0)
    (href : (p.technology src).plantSize ≠ 0) :
    vget (computeEnergy pw ⟨p, src, none, vempty⟩).values
        Key.totalCapitalCost =
      rq ((p.technology src).basePlantCost *
        pw (p.baseEnergyRequirement / (p.technology src).availability /
            (p.technology src).plantSize)
          (p.technology src).scalingFactor *
        lead_time_mult p.wacc (p.technology src).leadTime) := by
  rw [computeEnergy_norm_none]
  dsimp only
  simp [vsets, energyPost, preRec, vget, vset, vempty, hav, href]

theorem combined_tcc_nobat (pw : ℚ → ℚ → ℚ) (p : Params) (src : String)
    (ev tv : VRec) (h : ¬ vmem ev Key.batteryCapacityNeeded) :
    vget (combinedPowerBlock pw p src ev tv) Key.totalCapitalCost =
      rq (p.technology src).basePlantCost *
        RVal.powP pw
          ((vget ev Key.plantSize + vget tv Key.plantSize) /
            rq (p.technology src).plantSize)
          (rq (p.technology src).scalingFactor) *
        rq (lead_time_mult p.wacc (p.technology src).leadTime) + rq 0 := by
  unfold combinedPowerBlock
  dsimp only
  rw [if_neg h]
  simp [vget_vset]

/-- C1: `DacModel.compute` dispatches on technology-name equality — with
equal electric and thermal sources the energy-block totals come from the
combined power-block record (plant size the sum of the two plant sizes,
capital and O&M recomputed from that combined size through the power-law
curve); with different sources the electric and thermal records' capital
cost, capital recovery and O&M are summed directly; and the two paths
genuinely diverge: whenever the power law is non-additive at the
operating point (as a real power law is for any exponent other than 1 on
positive sizes), the combined total capital cost differs from the naive
sum of the two blocks' total capital costs. -/
theorem combined_vs_independent :
    (∀ (pw : ℚ → ℚ → ℚ) (p : Params) (e t : EnergyComponent),
      e.source = t.source →
      energyTotals pw p e t =
        totalEnergyBlockCostsCombined p (EnergyComponent.compute pw e).values
          (EnergyComponent.compute pw t).values
          (combinedPowerBlock pw p e.source
            (EnergyComponent.compute pw e).values
            (EnergyComponent.compute pw t).values)) ∧
    (∀ (pw : ℚ → ℚ → ℚ) (p : Params) (src : String) (ev tv : VRec),
      vget (combinedPowerBlock pw p src ev tv) Key.plantSize =
        vget ev Key.plantSize + vget tv Key.plantSize ∧
      vget (combinedPowerBlock pw p src ev tv) Key.capitalCost =
        rq (p.technology src).basePlantCost *
          RVal.powP pw
            ((vget ev Key.plantSize + vget tv Key.plantSize) /
              rq (p.technology src).plantSize)
            (rq (p.technology src).scalingFactor) *
          rq (lead_time_mult p.wacc (p.technology src).leadTime) ∧
      vget (combinedPowerBlock pw p src ev tv) Key.powerFixedOM =
        rq (p.technology src).baseFixedOM *
          RVal.powP pw
            ((vget ev Key.plantSize + vget tv Key.plantSize) /
              rq (p.technology src).plantSize)
            (rq (p.technology src).scalingFactor) *
          rq MILLION / rq p.scale ∧
      vget (combinedPowerBlock pw p src ev tv) Key.powerVariableOM =
        rq (p.technology src).variableOM *
          (vget ev Key.plantSize + vget tv Key.plantSize) *
          rq (p.dacCapacityFactor * HOURS_PER_YEAR) / rq p.scale) ∧
    (∀ (pw : ℚ → ℚ → ℚ) (p : Params) (e t : EnergyComponent),
      e.source ≠ t.source →
      energyTotals pw p e t =
        totalEnergyBlockCosts p (EnergyComponent.compute pw e).values
          (EnergyComponent.compute pw t).values) ∧
    (∀ (p : Params) (ev tv : VRec),
      vget (totalEnergyBlockCosts p ev tv) Key.totalCapitalCost =
        vget ev Key.totalCapitalCost + vget tv Key.totalCapitalCost ∧
      vget (totalEnergyBlockCosts p ev tv) Key.capitalRecovery =
        vget ev Key.capitalRecovery + vget tv Key.capitalRecovery ∧
      vget (totalEnergyBlockCosts p ev tv) Key.fixedOM =
        vget ev Key.totalFixedOM + vget tv Key.totalFixedOM ∧
      vget (totalEnergyBlockCosts p ev tv) Key.variableOM =
        vget ev Key.totalVariableOM + vget tv Key.totalVariableOM) ∧
    (∀ (pw : ℚ → ℚ → ℚ) (p : Params) (src : String),
      (p.technology src).availability ≠ 0 →
      (p.technology src).plantSize ≠ 0 →
      (p.technology src).basePlantCost ≠ 0 →
      lead_time_mult p.wacc (p.technology src).leadTime ≠ 0 →
      pw ((p.baseEnergyRequirement / (p.technology src).availability +
            p.baseEnergyRequirement / (p.technology src).availability) /
          (p.technology src).plantSize)
        (p.technology src).scalingFactor ≠
        pw (p.baseEnergyRequirement / (p.technology src).availability /
            (p.technology src).plantSize)
          (p.technology src).scalingFactor +
        pw (p.baseEnergyRequirement / (p.technology src).availability /
            (p.technology src).plantSize)
          (p.technology src).scalingFactor →
      vget (combinedPowerBlock pw p src
          (computeEnergy pw ⟨p, src, none, vempty⟩).values
          (computeEnergy pw ⟨p, src, none, vempty⟩).values)
        Key.totalCapitalCost ≠
        vget (computeEnergy pw ⟨p, src, none, vempty⟩).values
            Key.totalCapitalCost +
          vget (computeEnergy pw ⟨p, src, none, vempty⟩).values
            Key.totalCapitalCost) := by
  refine ⟨?_, ?_, ?_, ?_, ?_⟩
  · intro pw p e t hsame
    unfold energyTotals
    dsimp only
    rw [if_pos hsame]
  · intro pw p src ev tv
    refine ⟨?_, ?_, ?_, ?_⟩ <;>
      (unfold combinedPowerBlock
       dsimp only
       by_cases hbat : vmem ev Key.batteryCapacityNeeded <;>
         simp [hbat, vget_vset])
  · intro pw p e t hdiff
    unfold energyTotals
    dsimp only
    rw [if_neg hdiff]
  · intro p ev tv
    refine ⟨?_, ?_, ?_, ?_⟩ <;> simp [totalEnergyBlockCosts, vget_vset]
  · intro pw p src hav href hc hL hpw
    rw [combined_tcc_nobat pw p src _ _ (energy_nobat_no_bcn pw p src),
      energy_nobat_ps pw p src hav, energy_nobat_tcc pw p src hav href]
    simp only [RVal.add_val, RVal.div_val, href, if_neg, RVal.powP_val,
      RVal.mul_val, if_false]
    rw [Ne, RVal.val_injective]
    intro heq
    refine hpw ?_
    have h1 : (p.technology src).basePlantCost *
        lead_time_mult p.wacc (p.technology src).leadTime *
        (pw ((p.baseEnergyRequirement / (p.technology src).availability +
              p.baseEnergyRequirement / (p.technology src).availability) /
            (p.technology src).plantSize)
          (p.technology src).scalingFactor -
          (pw (p.baseEnergyRequirement / (p.technology src).availability /
              (p.technology src).plantSize)
            (p.technology src).scalingFactor +
          pw (p.baseEnergyRequirement / (p.technology src).availability /
              (p.technology src).plantSize)
            (p.technology src).scalingFactor)) = 0 := by
      linear_combination heq
    rcases mul_eq_zero.mp h1 with h2 | h3
    · exact absurd h2 (mul_ne_zero hc hL)
    · exact sub_eq_zero.mp h3

theorem combined_vs_independent_witness :
    ((EnergyComponent.standard ⟨pOne, "Solar", none, vempty⟩).source =
        (EnergyComponent.standard ⟨pOne, "Solar", none, vempty⟩).source ∧
      energyTotals (fun b _ => b * b) pOne
          (EnergyComponent.standard ⟨pOne, "Solar", none, vempty⟩)
          (EnergyComponent.standard ⟨pOne, "Solar", none, vempty⟩) =
        totalEnergyBlockCostsCombined pOne
          (EnergyComponent.compute (fun b _ => b * b)
            (EnergyComponent.standard ⟨pOne, "Solar", none, vempty⟩)).values
          (EnergyComponent.compute (fun b _ => b * b)
            (EnergyComponent.standard ⟨pOne, "Solar", none, vempty⟩)).values
          (combinedPowerBlock (fun b _ => b * b) pOne
            (EnergyComponent.standard ⟨pOne, "Solar", none, vempty⟩).source
            (EnergyComponent.compute (fun b _ => b * b)
              (EnergyComponent.standard ⟨pOne, "Solar", none, vempty⟩)).values
            (EnergyComponent.compute (fun b _ => b * b)
              (EnergyComponent.standard ⟨pOne, "Solar", none, vempty⟩)).values)) ∧
    ((EnergyComponent.standard ⟨pOne, "Solar", none, vempty⟩).source ≠
        (EnergyComponent.standard ⟨pOne, "Wind", none, vempty⟩).source ∧
      energyTotals (fun b _ => b * b) pOne
          (EnergyComponent.standard ⟨pOne, "Solar", none, vempty⟩)
          (EnergyComponent.standard ⟨pOne, "Wind", none, vempty⟩) =
        totalEnergyBlockCosts pOne
          (EnergyComponent.compute (fun b _ => b * b)
            (EnergyComponent.standard ⟨pOne, "Solar", none, vempty⟩)).values
          (EnergyComponent.compute (fun b _ => b * b)
            (EnergyComponent.standard ⟨pOne, "Wind", none, vempty⟩)).values) ∧
    vget (combinedPowerBlock (fun b _ => b * b) pOne "Solar"
        (computeEnergy (fun b _ => b * b) ⟨pOne, "Solar", none, vempty⟩).values
        (computeEnergy (fun b _ => b * b) ⟨pOne, "Solar", none, vempty⟩).values)
      Key.totalCapitalCost ≠
      vget (computeEnergy (fun b _ => b * b)
          ⟨pOne, "Solar", none, vempty⟩).values Key.totalCapitalCost +
        vget (computeEnergy (fun b _ => b * b)
          ⟨pOne, "Solar", none, vempty⟩).values Key.totalCapitalCost :=
  ⟨⟨rfl, combined_vs_independent.1 (fun b _ => b * b) pOne
      (EnergyComponent.standard ⟨pOne, "Solar", none, vempty⟩)
      (EnergyComponent.standard ⟨pOne, "Solar", none, vempty⟩) rfl⟩,
   ⟨by decide, combined_vs_independent.2.2.1 (fun b _ => b * b) pOne
      (EnergyComponent.standard ⟨pOne, "Solar", none, vempty⟩)
      (EnergyComponent.standard ⟨pOne, "Wind", none, vempty⟩) (by decide)⟩,
   combined_vs_independent.2.2.2.2 (fun b _ => b * b) pOne "Solar"
     (by norm_num [pOne, techOne]) (by norm_num [pOne, techOne])
     (by norm_num [pOne, techOne])
     (by norm_num [pOne, techOne, lead_time_mult, lead_time_vals])
     (by norm_num [pOne, techOne])⟩

end DacCosting
